import Mathlib

/-!
Verification of the dispatch-and-delivery pipeline of `src/main.py` (a media
downloader bot).  The Python code is shallowly embedded: every fallible
primitive (the extractor, each reply/send primitive, filesystem removal) is
modelled by an explicit oracle in an `Env` record, a raised exception by an
`Option String`, and the filesystem by the list of existing file paths.
A run of a handler returns the list of successfully performed user-visible
actions, the final filesystem, and the exception escaping the handler, if any.
-/

namespace Fullsave

/-- Substring test: `hasPre n h` is true when `n` is a prefix of `h`
(embeds the prefix step of Python's `in` on strings). -/
def hasPre : List Char → List Char → Bool
  | [], _ => true
  | _ :: _, [] => false
  | a :: ns, b :: hs => a == b && hasPre ns hs

/-- `hasSub h n` is true when `n` occurs as a contiguous substring of `h`
(embeds Python's `needle in haystack`). -/
def hasSub : List Char → List Char → Bool
  | [], n => hasPre n []
  | h@(_ :: hs), n => hasPre n h || hasSub hs n

/-- String-level wrapper for `hasSub`. -/
def strContains (h n : String) : Bool := hasSub h.toList n.toList

/-! ## urlparse (scheme and netloc extraction)

Embeds the part of CPython's `urllib.parse.urlsplit` that `main.py` consumes:
the leading C0-control/space strip, removal of tab/CR/LF, scheme extraction
(first `:` with a leading ASCII letter and scheme characters before it),
netloc extraction after `//` up to the first `/`, `?` or `#`, and the
`ValueError` raised for mismatched square brackets in the netloc. -/

/-- Characters allowed in a URL scheme (ASCII letters, digits, `+`, `-`, `.`). -/
def isSchemeChar (c : Char) : Bool := c.isAlphanum || c == '+' || c == '-' || c == '.'

/-- Split off the scheme: embeds `url.find(dcolon)` with the leading-letter and
scheme-character checks; returns (lower-cased scheme, remainder). -/
def splitScheme (u : List Char) : List Char × List Char :=
  let pre := u.takeWhile (fun c => c != ':')
  match u.dropWhile (fun c => c != ':') with
  | [] => ([], u)
  | _ :: rest =>
    match pre with
    | [] => ([], u)
    | c0 :: _ =>
      if c0.isAlpha && pre.all isSchemeChar then (pre.map Char.toLower, rest)
      else ([], u)

/-- The netloc runs from just after `//` to the first `/`, `?` or `#`. -/
def netlocChars (u : List Char) : List Char :=
  u.takeWhile (fun c => c != '/' && c != '?' && c != '#')

/-- Embeds `urlsplit`: returns `(scheme, netloc)` or the `ValueError` message
raised for a netloc with mismatched `[`/`]`. -/
def urlsplitSN (url : String) : Except String (String × String) :=
  let u0 := url.toList.dropWhile (fun c => c.toNat ≤ 32)
  let u1 := u0.filter (fun c => c != '\t' && c != '\r' && c != '\n')
  let (scheme, rest) := splitScheme u1
  if rest.take 2 == ['/', '/'] then
    let netloc := netlocChars (rest.drop 2)
    if (netloc.contains '[' && !netloc.contains ']') ||
       (netloc.contains ']' && !netloc.contains '[') then
      Except.error "Invalid IPv6 URL"
    else
      Except.ok (String.mk scheme, String.mk netloc)
  else
    Except.ok (String.mk scheme, "")

/-- Embeds `is_valid_url` (main.py:126-132): `urlparse` inside a bare
`try/except`, then `all([result.scheme, result.netloc])`. -/
def is_valid_url (url : String) : Bool :=
  match urlsplitSN url with
  | Except.ok (scheme, netloc) => !(scheme == "") && !(netloc == "")
  | Except.error _ => false

/-! ## Data model and environment -/

/-- The `MediaInfo` dict returned by an extractor.  The `type` tag is kept as a
string because the code dispatches on string equality with an open fallback. -/
structure MediaInfo where
  mtype : String
  file_path : String
  file_size : Nat
  caption : String
  direct_url : Option String
deriving DecidableEq, Repr

/-- Result of one extractor invocation: `None` (absent), a populated
`MediaInfo`, or a raised exception carrying its message. -/
inductive ExtractResult where
  | absent
  | media (m : MediaInfo)
  | raise (msg : String)
deriving DecidableEq, Repr

/-- Platform identifiers of the dispatch in `process_url` (main.py:66-74). -/
inductive Platform where
  | youtube
  | instagram
  | tiktok
  | generic
deriving DecidableEq, Repr

/-- Embeds the dispatch chain of main.py:66-74 on the lower-cased netloc. -/
def classify (domain : String) : Platform :=
  if strContains domain "youtube.com" || strContains domain "youtu.be" then
    Platform.youtube
  else if strContains domain "instagram.com" then Platform.instagram
  else if strContains domain "tiktok.com" then Platform.tiktok
  else Platform.generic

/-- A user-visible primitive performed by the handlers: one of the Telegram
reply calls, or the `os.remove` cleanup call. -/
inductive Action where
  | sendText (msg : String)
  | sendVideo (path caption : String) (streaming : Bool)
  | sendPhoto (path caption : String)
  | sendAudio (path caption : String)
  | sendDocument (path caption : String)
  | removeFile (path : String)
deriving DecidableEq, Repr

/-- `true` for the reply primitives the user can observe, `false` for the
filesystem cleanup call. -/
def isUserMsg : Action → Bool
  | Action.removeFile _ => false
  | _ => true

/-- `true` exactly for a video-binary transmission. -/
def isVideoSend : Action → Bool
  | Action.sendVideo _ _ _ => true
  | _ => false

/-- `true` exactly for plain text replies. -/
def isTextOnly : Action → Bool
  | Action.sendText _ => true
  | _ => false

/-- Number of user-visible replies in an action trace. -/
def terminalCount (acts : List Action) : Nat := (acts.filter isUserMsg).length

/-- The runtime environment: the configured size limit (`MAX_FILE_SIZE`),
and oracles saying whether each send primitive or file removal succeeds,
together with the message of the exception raised when it fails. -/
structure Env where
  size_limit : Nat
  sendOk : Action → Bool
  sendErr : Action → String
  removeOk : String → Bool
  removeErr : String → String

/-- Result of running a handler: successfully performed actions in order, the
final filesystem (list of existing paths), and the exception escaping the
handler, if any. -/
structure RunResult where
  acts : List Action
  fs : List String
  escaped : Option String
deriving DecidableEq, Repr

/-! ## Delivery selector (main.py:91-116) -/

/-- Fixed prefix of the oversize notice (main.py:94). -/
def oversizePre : String := "Video is too large to send via Telegram. Download link: "

/-- Fixed notice for absent extraction (main.py:87). -/
def absentMsg : String := "Could not extract media from this URL."

/-- Fixed acknowledgment sent before extraction (main.py:60). -/
def ackMsg : String := "Processing your request, please wait..."

/-- Fixed notice for an invalid URL (main.py:57). -/
def invalidMsg : String := "Please send a valid URL"

/-- Embeds the branch chain of main.py:91-116: the single reply call selected
for a given `MediaInfo` under a given size limit. -/
def deliveryAction (limit : Nat) (m : MediaInfo) : Action :=
  if m.mtype == "video" then
    if m.file_size > limit then
      Action.sendText (oversizePre ++ m.direct_url.getD "Not available")
    else
      Action.sendVideo m.file_path m.caption true
  else if m.mtype == "photo" then Action.sendPhoto m.file_path m.caption
  else if m.mtype == "audio" then Action.sendAudio m.file_path m.caption
  else Action.sendDocument m.file_path m.caption

/-- The delivery branch selected by main.py:91-116, named. -/
inductive Branch where
  | oversize
  | video
  | photo
  | audio
  | document
deriving DecidableEq, Repr

/-- Branch selection of the delivery selector as a function of the size limit
and the `MediaInfo` alone. -/
def selectBranch (limit : Nat) (m : MediaInfo) : Branch :=
  if m.mtype == "video" then
    if m.file_size > limit then Branch.oversize else Branch.video
  else if m.mtype == "photo" then Branch.photo
  else if m.mtype == "audio" then Branch.audio
  else Branch.document

/-! ## extract_and_send (main.py:80-124) -/

/-- The body of the `try` block of `extract_and_send` (main.py:82-120):
extract, the absent check, one delivery call, then the guarded `os.remove`.
The third component is the exception raised inside the block, if any. -/
def extract_and_send_try (env : Env) (fs : List String) (er : ExtractResult) :
    RunResult :=
  match er with
  | ExtractResult.raise msg => ⟨[], fs, some msg⟩
  | ExtractResult.absent =>
    let a := Action.sendText absentMsg
    if env.sendOk a then ⟨[a], fs, none⟩ else ⟨[], fs, some (env.sendErr a)⟩
  | ExtractResult.media m =>
    let a := deliveryAction env.size_limit m
    if env.sendOk a then
      if fs.contains m.file_path then
        if env.removeOk m.file_path then
          ⟨[a, Action.removeFile m.file_path],
            fs.filter (fun p => p != m.file_path), none⟩
        else ⟨[a], fs, some (env.removeErr m.file_path)⟩
      else ⟨[a], fs, none⟩
    else ⟨[], fs, some (env.sendErr a)⟩

/-- The `except` clause of `extract_and_send` (main.py:122-124): on a raised
exception, log and attempt the "Error sending media" reply; if that reply
itself raises, the new exception escapes the handler. -/
def runHandler (env : Env) (r : RunResult) : RunResult :=
  match r.escaped with
  | none => r
  | some e =>
    let a := Action.sendText ("Error sending media: " ++ e)
    if env.sendOk a then ⟨r.acts ++ [a], r.fs, none⟩
    else ⟨r.acts, r.fs, some (env.sendErr a)⟩

/-- Embeds `extract_and_send` (main.py:80-124): the `try` body wrapped by the
`except` clause. -/
def extract_and_send (env : Env) (fs : List String) (er : ExtractResult) :
    RunResult :=
  runHandler env (extract_and_send_try env fs er)

/-! ## process_url (main.py:51-78) -/

/-- Embeds `process_url` (main.py:51-78).  `extractors` gives the outcome of
each platform's extractor for this request.  The validation reply and the
acknowledgment are outside the `try` block, as in the source; the `try` block
covers `urlparse` and the dispatched `extract_and_send` call. -/
def process_url (env : Env) (fs : List String) (url : String)
    (extractors : Platform → ExtractResult) : RunResult :=
  if !is_valid_url url then
    let a := Action.sendText invalidMsg
    if env.sendOk a then ⟨[a], fs, none⟩ else ⟨[], fs, some (env.sendErr a)⟩
  else
    let a := Action.sendText ackMsg
    if env.sendOk a then
      match urlsplitSN url with
      | Except.ok (_, netloc) =>
        let r := extract_and_send env fs (extractors (classify netloc.toLower))
        match r.escaped with
        | none => ⟨a :: r.acts, r.fs, none⟩
        | some e =>
          let b := Action.sendText ("Error processing your request: " ++ e)
          if env.sendOk b then ⟨a :: (r.acts ++ [b]), r.fs, none⟩
          else ⟨a :: r.acts, r.fs, some (env.sendErr b)⟩
      | Except.error e =>
        let b := Action.sendText ("Error processing your request: " ++ e)
        if env.sendOk b then ⟨[a, b], fs, none⟩
        else ⟨[a], fs, some (env.sendErr b)⟩
    else ⟨[], fs, some (env.sendErr a)⟩

/-! ## Concrete environments and media used as witnesses/counterexamples -/

/-- Environment in which every send and every removal succeeds. -/
def envAllOk : Env :=
  ⟨50000000, fun _ => true, fun _ => "SendError", fun _ => true,
    fun _ => "RemoveError"⟩

/-- Environment in which only the acknowledgment text can be sent: every other
send fails, removals succeed. -/
def envOnlyAck : Env :=
  ⟨50000000,
    fun a => match a with
      | Action.sendText s => s == ackMsg
      | _ => false,
    fun _ => "SendError", fun _ => true, fun _ => "RemoveError"⟩

/-- Environment in which transmitting a video binary fails but every text
reply succeeds; removals succeed. -/
def envVideoSendFails : Env :=
  ⟨50000000,
    fun a => match a with
      | Action.sendVideo _ _ _ => false
      | _ => true,
    fun _ => "SendError", fun _ => true, fun _ => "RemoveError"⟩

/-- Environment in which every send succeeds but every file removal fails. -/
def envRemoveFails : Env :=
  ⟨50000000, fun _ => true, fun _ => "SendError", fun _ => false,
    fun _ => "RemoveError"⟩

/-- A small video artifact (10 MB, under the 50 MB default limit). -/
def smallVideo : MediaInfo := ⟨"video", "/tmp/a.mp4", 10000000, "c", none⟩

/-- An oversize video artifact (60 MB) with a direct link. -/
def bigVideo : MediaInfo :=
  ⟨"video", "/tmp/b.mp4", 60000000, "c", some "https://cdn/x.mp4"⟩

/-- A video artifact whose size is exactly the default 50 MB limit. -/
def limitVideo : MediaInfo := ⟨"video", "/tmp/c.mp4", 50000000, "c", none⟩

/-- A media item whose declared type is none of video, photo or audio. -/
def otherMedia : MediaInfo := ⟨"gif", "/tmp/d.bin", 5, "cap", none⟩

/-! ## Helper lemmas -/

-- The delivery selector always picks a reply primitive, never the cleanup call.
theorem isUserMsg_deliveryAction (limit : Nat) (m : MediaInfo) :
    isUserMsg (deliveryAction limit m) = true := by
  unfold deliveryAction isUserMsg
  split_ifs <;> rfl

-- Removing every copy of a path from the filesystem makes `contains` false.
theorem contains_filter_ne (fs : List String) (x : String) :
    (fs.filter (fun p => p != x)).contains x = false := by
  simp

-- The cleanup call is not a user-visible reply.
theorem isUserMsg_removeFile (p : String) :
    isUserMsg (Action.removeFile p) = false := rfl

/-! ## Claim theorems -/

/-- C4: `is_valid_url` returns true exactly when the input parses (without a
raised `ValueError`) to a URL with both a non-empty scheme and a non-empty
host; any parse failure yields false rather than propagating. -/
theorem is_valid_url_iff_scheme_and_host (url : String) :
    is_valid_url url = true ↔
      ∃ s n, urlsplitSN url = Except.ok (s, n) ∧ s ≠ "" ∧ n ≠ "" := by
  unfold is_valid_url
  cases h : urlsplitSN url with
  | ok sn =>
    obtain ⟨s, n⟩ := sn
    simp only [Bool.and_eq_true, Bool.not_eq_eq_eq_not, Bool.not_true,
      beq_eq_false_iff_ne, ne_eq]
    constructor
    · rintro ⟨hs, hn⟩
      exact ⟨s, n, rfl, hs, hn⟩
    · rintro ⟨s', n', hok, hs, hn⟩
      obtain ⟨rfl, rfl⟩ : s = s' ∧ n = n' := by
        have := hok
        simp only [Except.ok.injEq, Prod.mk.injEq] at this
        exact ⟨this.1, this.2⟩
      exact ⟨hs, hn⟩
  | error e =>
    simp

/-- C5: platform classification is a total function of the lower-cased host,
decided first-match-wins: youtube-containing hosts map to youtube, then
instagram, then tiktok, and every other host maps to generic. -/
theorem classify_priority (d : String) :
    ((strContains d "youtube.com" || strContains d "youtu.be") = true →
      classify d = Platform.youtube) ∧
    ((strContains d "youtube.com" || strContains d "youtu.be") = false →
      strContains d "instagram.com" = true → classify d = Platform.instagram) ∧
    ((strContains d "youtube.com" || strContains d "youtu.be") = false →
      strContains d "instagram.com" = false →
      strContains d "tiktok.com" = true → classify d = Platform.tiktok) ∧
    ((strContains d "youtube.com" || strContains d "youtu.be") = false →
      strContains d "instagram.com" = false →
      strContains d "tiktok.com" = false → classify d = Platform.generic) := by
  refine ⟨?_, ?_, ?_, ?_⟩
  · intro h; simp [classify, h]
  · intro h1 h2; simp [classify, h1, h2]
  · intro h1 h2 h3; simp [classify, h1, h2, h3]
  · intro h1 h2 h3; simp [classify, h1, h2, h3]

/-- C5 witness: a concrete youtube host classifies as youtube. -/
theorem classify_priority_witness :
    classify "www.youtube.com" = Platform.youtube :=
  (classify_priority "www.youtube.com").1 (by decide)

/-- C8: any declared type other than video, photo or audio is delivered
through the document channel with the caption, and the delivery selector
always picks some reply channel for every `MediaInfo`. -/
theorem fallback_document_channel :
    (∀ (limit : Nat) (m : MediaInfo),
      m.mtype ≠ "video" → m.mtype ≠ "photo" → m.mtype ≠ "audio" →
      deliveryAction limit m = Action.sendDocument m.file_path m.caption) ∧
    (∀ (limit : Nat) (m : MediaInfo),
      isUserMsg (deliveryAction limit m) = true) := by
  constructor
  · intro limit m h1 h2 h3
    simp [deliveryAction, h1, h2, h3]
  · intro limit m
    exact isUserMsg_deliveryAction limit m

/-- C8 witness: a media item of type "gif" goes to the document channel. -/
theorem fallback_document_channel_witness :
    deliveryAction 50000000 otherMedia =
      Action.sendDocument "/tmp/d.bin" "cap" ∧
    isUserMsg (deliveryAction 50000000 otherMedia) = true :=
  ⟨fallback_document_channel.1 50000000 otherMedia
      (by decide) (by decide) (by decide),
   fallback_document_channel.2 50000000 otherMedia⟩

/-- C9: delivery branch selection depends only on the configured size limit
and the `MediaInfo`: two environments agreeing on the size limit select the
same branch and the same delivery action for the same `MediaInfo`. -/
theorem branch_selection_deterministic (e₁ e₂ : Env) (m : MediaInfo)
    (h : e₁.size_limit = e₂.size_limit) :
    selectBranch e₁.size_limit m = selectBranch e₂.size_limit m ∧
    deliveryAction e₁.size_limit m = deliveryAction e₂.size_limit m := by
  rw [h]
  exact ⟨rfl, rfl⟩

/-- C9 witness: two concrete environments with the same limit but different
send/removal oracles select the same branch for the same video. -/
theorem branch_selection_deterministic_witness :
    selectBranch envAllOk.size_limit smallVideo =
      selectBranch envRemoveFails.size_limit smallVideo ∧
    deliveryAction envAllOk.size_limit smallVideo =
      deliveryAction envRemoveFails.size_limit smallVideo :=
  branch_selection_deterministic envAllOk envRemoveFails smallVideo rfl

/-- C10: the size gate is strict: a video whose size equals the limit is sent
as a binary with streaming and caption, and the oversize text notice occurs
only when the size strictly exceeds the limit. -/
theorem size_boundary_strict (limit : Nat) (m : MediaInfo)
    (hv : m.mtype = "video") :
    (m.file_size = limit →
      deliveryAction limit m = Action.sendVideo m.file_path m.caption true) ∧
    (∀ s, deliveryAction limit m = Action.sendText s → m.file_size > limit) := by
  constructor
  · intro he
    simp [deliveryAction, hv, he]
  · intro s hsend
    by_contra hng
    simp [deliveryAction, hv, hng] at hsend

/-- C10 witness: a video of exactly 50,000,000 bytes under a 50,000,000-byte
limit is sent as a binary. -/
theorem size_boundary_strict_witness :
    deliveryAction 50000000 limitVideo =
      Action.sendVideo "/tmp/c.mp4" "c" true :=
  (size_boundary_strict 50000000 limitVideo rfl).1 rfl

/-- C1 counterexample: when the delivery send raises, the `except` clause runs
and the `os.remove` cleanup is skipped, so the artifact is still on disk after
the delivery attempt completes (the run finishes without escaping). -/
theorem cleanup_skipped_when_send_fails :
    (extract_and_send envVideoSendFails ["/tmp/a.mp4"]
        (ExtractResult.media smallVideo)).fs = ["/tmp/a.mp4"] ∧
    (extract_and_send envVideoSendFails ["/tmp/a.mp4"]
        (ExtractResult.media smallVideo)).escaped = none := by
  constructor <;> rfl

/-- C1 amended: the artifact is removed only on the success path: when the
delivery send succeeds and the removal succeeds, the file at `file_path` no
longer exists after the run. -/
theorem cleanup_after_successful_delivery (env : Env) (fs : List String)
    (m : MediaInfo)
    (hs : env.sendOk (deliveryAction env.size_limit m) = true)
    (hr : env.removeOk m.file_path = true) :
    (extract_and_send env fs
        (ExtractResult.media m)).fs.contains m.file_path = false ∧
    (extract_and_send env fs (ExtractResult.media m)).escaped = none := by
  by_cases hc : m.file_path ∈ fs
  · simp [extract_and_send, extract_and_send_try, runHandler, hs, hr, hc]
  · simp [extract_and_send, extract_and_send_try, runHandler, hs, hc]

/-- C1 witness: in the all-success environment a small video is sent and its
file is gone afterwards. -/
theorem cleanup_after_successful_delivery_witness :
    (extract_and_send envAllOk ["/tmp/a.mp4"]
        (ExtractResult.media smallVideo)).fs.contains "/tmp/a.mp4" = false ∧
    (extract_and_send envAllOk ["/tmp/a.mp4"]
        (ExtractResult.media smallVideo)).escaped = none :=
  cleanup_after_successful_delivery envAllOk ["/tmp/a.mp4"] smallVideo rfl rfl

/-- C3: for a video strictly above the limit the selected delivery is a text
notice carrying `direct_url` when present and "Not available" when absent, no
video binary appears anywhere in the run's actions; at or below the limit the
video binary is sent with streaming and the caption. -/
theorem oversize_video_gate (limit : Nat) (m : MediaInfo)
    (hv : m.mtype = "video") :
    (∀ u, m.direct_url = some u → m.file_size > limit →
      deliveryAction limit m = Action.sendText (oversizePre ++ u)) ∧
    (m.direct_url = none → m.file_size > limit →
      deliveryAction limit m =
        Action.sendText (oversizePre ++ "Not available")) ∧
    (∀ (env : Env) (fs : List String), m.file_size > env.size_limit →
      ((extract_and_send env fs (ExtractResult.media m)).acts.all
        (fun x => !isVideoSend x)) = true) ∧
    (m.file_size ≤ limit →
      deliveryAction limit m = Action.sendVideo m.file_path m.caption true) := by
  refine ⟨?_, ?_, ?_, ?_⟩
  · intro u hu hsz
    simp [deliveryAction, hv, hu, hsz]
  · intro hu hsz
    simp [deliveryAction, hv, hu, hsz]
  · intro env fs hsz
    have ha : deliveryAction env.size_limit m =
        Action.sendText (oversizePre ++ m.direct_url.getD "Not available") := by
      simp [deliveryAction, hv, hsz]
    simp only [extract_and_send, extract_and_send_try, runHandler, ha]
    by_cases h1 : env.sendOk
        (Action.sendText (oversizePre ++ m.direct_url.getD "Not available"))
          = true
    · by_cases hc : m.file_path ∈ fs
      · by_cases h2 : env.removeOk m.file_path = true
        · simp [h1, hc, h2, isVideoSend]
        · by_cases h3 : env.sendOk (Action.sendText
              ("Error sending media: " ++ env.removeErr m.file_path)) = true
          · simp [h1, hc, h2, h3, isVideoSend]
          · simp [h1, hc, h2, h3, isVideoSend]
      · simp [h1, hc, isVideoSend]
    · by_cases h3 : env.sendOk (Action.sendText ("Error sending media: " ++
          env.sendErr (Action.sendText
            (oversizePre ++ m.direct_url.getD "Not available")))) = true
      · simp [h1, h3, isVideoSend]
      · simp [h1, h3, isVideoSend]
  · intro hle
    simp [deliveryAction, hv, Nat.not_lt.mpr hle]

/-- C3 witness: a 60 MB video with a direct link, under the 50 MB limit,
produces the link notice and its run contains no video transmission. -/
theorem oversize_video_gate_witness :
    deliveryAction 50000000 bigVideo =
      Action.sendText (oversizePre ++ "https://cdn/x.mp4") ∧
    ((extract_and_send envAllOk ["/tmp/b.mp4"]
        (ExtractResult.media bigVideo)).acts.all
      (fun x => !isVideoSend x)) = true :=
  ⟨(oversize_video_gate 50000000 bigVideo rfl).1 "https://cdn/x.mp4" rfl
      (by decide),
   (oversize_video_gate 50000000 bigVideo rfl).2.2.1 envAllOk ["/tmp/b.mp4"]
      (by decide)⟩

/-- C6: on an absent extraction the handler sends exactly the fixed
"could not extract" notice (when that send succeeds), touches no file, and
every action of an absent run is a plain text reply: no delivery channel and
no cleanup is ever invoked. -/
theorem absent_notice (env : Env) (fs : List String) :
    (env.sendOk (Action.sendText absentMsg) = true →
      extract_and_send env fs ExtractResult.absent =
        ⟨[Action.sendText absentMsg], fs, none⟩) ∧
    (extract_and_send env fs ExtractResult.absent).fs = fs ∧
    ((extract_and_send env fs ExtractResult.absent).acts.all isTextOnly)
      = true := by
  refine ⟨?_, ?_, ?_⟩
  · intro h
    simp [extract_and_send, extract_and_send_try, runHandler, h]
  · cases h : env.sendOk (Action.sendText absentMsg) with
    | true => simp [extract_and_send, extract_and_send_try, runHandler, h]
    | false =>
      cases h2 : env.sendOk (Action.sendText ("Error sending media: " ++
          env.sendErr (Action.sendText absentMsg))) with
      | true => simp [extract_and_send, extract_and_send_try, runHandler, h, h2]
      | false => simp [extract_and_send, extract_and_send_try, runHandler, h, h2]
  · cases h : env.sendOk (Action.sendText absentMsg) with
    | true =>
      simp [extract_and_send, extract_and_send_try, runHandler, h, isTextOnly]
    | false =>
      cases h2 : env.sendOk (Action.sendText ("Error sending media: " ++
          env.sendErr (Action.sendText absentMsg))) with
      | true =>
        simp [extract_and_send, extract_and_send_try, runHandler, h, h2,
          isTextOnly]
      | false =>
        simp [extract_and_send, extract_and_send_try, runHandler, h, h2,
          isTextOnly]

/-- C6 witness: the absent run in the all-success environment is exactly one
fixed notice with the filesystem untouched. -/
theorem absent_notice_witness :
    extract_and_send envAllOk [] ExtractResult.absent =
      ⟨[Action.sendText absentMsg], [], none⟩ :=
  (absent_notice envAllOk []).1 rfl

/-- C7 counterexample: when the removal raises after a successful video send,
the `except` clause sends the "Error sending media" reply, so the cleanup
failure is surfaced to the user. -/
theorem cleanup_failure_surfaced :
    (extract_and_send envRemoveFails ["/tmp/a.mp4"]
        (ExtractResult.media smallVideo)).acts =
      [Action.sendVideo "/tmp/a.mp4" "c" true,
       Action.sendText "Error sending media: RemoveError"] := by
  rfl

/-- C7 amended: a cleanup failure is caught by the handler and never escapes
the request (it completes with no escaping exception), but it is reported to
the user through the generic "Error sending media" reply rather than only
logged. -/
theorem cleanup_failure_reported_not_escalated (env : Env) (fs : List String)
    (m : MediaInfo)
    (hs : env.sendOk (deliveryAction env.size_limit m) = true)
    (hc : fs.contains m.file_path = true)
    (hr : env.removeOk m.file_path = false)
    (he : env.sendOk (Action.sendText
        ("Error sending media: " ++ env.removeErr m.file_path)) = true) :
    extract_and_send env fs (ExtractResult.media m) =
      ⟨[deliveryAction env.size_limit m,
        Action.sendText ("Error sending media: " ++ env.removeErr m.file_path)],
        fs, none⟩ := by
  replace hc : m.file_path ∈ fs := by simpa using hc
  simp [extract_and_send, extract_and_send_try, runHandler, hs, hc, hr, he]

-- Under always-succeeding text sends and removals, every `extract_and_send`
-- run finishes without an escaping exception and performs exactly one
-- user-visible reply.
theorem aux_one_reply (env : Env)
    (htext : ∀ s, env.sendOk (Action.sendText s) = true)
    (hrm : ∀ p, env.removeOk p = true) (fs : List String)
    (er : ExtractResult) :
    (extract_and_send env fs er).escaped = none ∧
    terminalCount (extract_and_send env fs er).acts = 1 := by
  cases er with
  | absent =>
    simp [extract_and_send, extract_and_send_try, runHandler, htext,
      terminalCount, isUserMsg]
  | raise msg =>
    simp [extract_and_send, extract_and_send_try, runHandler, htext,
      terminalCount, isUserMsg]
  | media m =>
    by_cases hs : env.sendOk (deliveryAction env.size_limit m) = true
    · by_cases hc : m.file_path ∈ fs
      · have h1 : isUserMsg (deliveryAction env.size_limit m) = true :=
          isUserMsg_deliveryAction env.size_limit m
        simp [extract_and_send, extract_and_send_try, runHandler, hs, hc,
          hrm, terminalCount, List.filter_cons, h1, isUserMsg_removeFile]
      · have h1 : isUserMsg (deliveryAction env.size_limit m) = true :=
          isUserMsg_deliveryAction env.size_limit m
        simp [extract_and_send, extract_and_send_try, runHandler, hs, hc,
          terminalCount, List.filter_cons, h1]
    · simp [extract_and_send, extract_and_send_try, runHandler, hs, htext,
        terminalCount, isUserMsg]

-- Under the same hypotheses, no exception escapes `process_url` either.
theorem aux_no_escape_process (env : Env)
    (htext : ∀ s, env.sendOk (Action.sendText s) = true)
    (hrm : ∀ p, env.removeOk p = true) (fs : List String) (url : String)
    (ex : Platform → ExtractResult) :
    (process_url env fs url ex).escaped = none := by
  unfold process_url
  by_cases hv : is_valid_url url
  · simp only [hv, Bool.not_true, Bool.false_eq_true, if_false]
    cases hu : urlsplitSN url with
    | ok sn =>
      obtain ⟨s, n⟩ := sn
      have hinner := (aux_one_reply env htext hrm fs
        (ex (classify n.toLower))).1
      simp [htext, hu, hinner]
    | error e =>
      simp [htext, hu]
  · simp [hv, htext]

/-- C2 counterexample: in an environment where only the acknowledgment text
can be delivered, an extraction failure on a valid URL leaves the user with
no terminal reply at all and the exception escapes `process_url` to the
serving loop. -/
theorem orchestrator_silence_possible :
    (process_url envOnlyAck [] "https://youtube.com/w"
        (fun _ => ExtractResult.raise "boom")).escaped = some "SendError" ∧
    (process_url envOnlyAck [] "https://youtube.com/w"
        (fun _ => ExtractResult.raise "boom")).acts =
      [Action.sendText ackMsg] := by
  constructor <;> rfl

/-- C2 amended: provided the text-reply primitive and file removal never
fail, every exception raised during extraction or delivery is caught inside
the orchestrator: no exception escapes `extract_and_send` or `process_url`,
and `extract_and_send` performs exactly one user-visible terminal reply. -/
theorem one_terminal_reply_when_notices_deliverable :
    (∀ (env : Env), (∀ s, env.sendOk (Action.sendText s) = true) →
      (∀ p, env.removeOk p = true) →
      ∀ (fs : List String) (er : ExtractResult),
        (extract_and_send env fs er).escaped = none ∧
        terminalCount (extract_and_send env fs er).acts = 1) ∧
    (∀ (env : Env), (∀ s, env.sendOk (Action.sendText s) = true) →
      (∀ p, env.removeOk p = true) →
      ∀ (fs : List String) (url : String) (ex : Platform → ExtractResult),
        (process_url env fs url ex).escaped = none) :=
  ⟨fun env h1 h2 fs er => aux_one_reply env h1 h2 fs er,
   fun env h1 h2 fs url ex => aux_no_escape_process env h1 h2 fs url ex⟩

/-- C2 witness: in the all-success environment a raising extractor still
yields exactly one reply and nothing escapes, at the handler and at the
orchestrator level. -/
theorem one_terminal_reply_witness :
    (extract_and_send envAllOk [] (ExtractResult.raise "boom")).escaped
      = none ∧
    terminalCount
      (extract_and_send envAllOk [] (ExtractResult.raise "boom")).acts = 1 ∧
    (process_url envAllOk [] "https://youtube.com/w"
        (fun _ => ExtractResult.raise "boom")).escaped = none :=
  ⟨(one_terminal_reply_when_notices_deliverable.1 envAllOk (fun _ => rfl)
      (fun _ => rfl) [] (ExtractResult.raise "boom")).1,
   (one_terminal_reply_when_notices_deliverable.1 envAllOk (fun _ => rfl)
      (fun _ => rfl) [] (ExtractResult.raise "boom")).2,
   one_terminal_reply_when_notices_deliverable.2 envAllOk (fun _ => rfl)
      (fun _ => rfl) [] "https://youtube.com/w"
      (fun _ => ExtractResult.raise "boom")⟩

/-- C7 witness: the failing-removal environment on a concrete small video. -/
theorem cleanup_failure_reported_witness :
    extract_and_send envRemoveFails ["/tmp/a.mp4"]
        (ExtractResult.media smallVideo) =
      ⟨[deliveryAction envRemoveFails.size_limit smallVideo,
        Action.sendText ("Error sending media: " ++
          envRemoveFails.removeErr "/tmp/a.mp4")], ["/tmp/a.mp4"], none⟩ :=
  cleanup_failure_reported_not_escalated envRemoveFails ["/tmp/a.mp4"]
    smallVideo rfl (by decide) rfl rfl

end Fullsave
